import Mathlib

/- Verification of the playlist-sorting backend core (app.py): the Camelot key
mapping spotify_to_camelot, the Camelot sort sort_tracks_camelot, the lyrics
pipeline fetch_and_process_lyrics / process_lyrics, and the lyric-similarity
ranking sort_songs_by_similarity.  Python values are embedded shallowly:
strings as String, dictionaries with literal keys as if-chains, nullable
values as Option, raised exceptions as Except.error. -/

/-- spotify_to_camelot from app.py: the fixed 24-entry dictionary from
(key, mode) pairs to Camelot wheel strings; dict.get returns None for every
pair outside the 24-entry domain. -/
def spotify_to_camelot (key mode : Int) : Option String :=
  if key = 0 ∧ mode = 1 then some "8B"
  else if key = 1 ∧ mode = 1 then some "3B"
  else if key = 2 ∧ mode = 1 then some "10B"
  else if key = 3 ∧ mode = 1 then some "5B"
  else if key = 4 ∧ mode = 1 then some "12B"
  else if key = 5 ∧ mode = 1 then some "7B"
  else if key = 6 ∧ mode = 1 then some "2B"
  else if key = 7 ∧ mode = 1 then some "9B"
  else if key = 8 ∧ mode = 1 then some "4B"
  else if key = 9 ∧ mode = 1 then some "11B"
  else if key = 10 ∧ mode = 1 then some "6B"
  else if key = 11 ∧ mode = 1 then some "1B"
  else if key = 0 ∧ mode = 0 then some "5A"
  else if key = 1 ∧ mode = 0 then some "12A"
  else if key = 2 ∧ mode = 0 then some "7A"
  else if key = 3 ∧ mode = 0 then some "2A"
  else if key = 4 ∧ mode = 0 then some "9A"
  else if key = 5 ∧ mode = 0 then some "4A"
  else if key = 6 ∧ mode = 0 then some "11A"
  else if key = 7 ∧ mode = 0 then some "6A"
  else if key = 8 ∧ mode = 0 then some "1A"
  else if key = 9 ∧ mode = 0 then some "8A"
  else if key = 10 ∧ mode = 0 then some "3A"
  else if key = 11 ∧ mode = 0 then some "10A"
  else none

/-- Modelled from the spec: the documented Camelot wheel assignment (the
standard circle-of-fifths-derived positions of section 4.1).  Mode 1 (major)
is the B ring with C major (pitch class 0) at position 8 and each ascending
fifth (7 semitones) one position further; mode 0 (minor) is the A ring three
positions back (the relative minor shares the wheel position of its major).
Outside pitch classes 0-11 and modes 0-1 there is no value. -/
def camelotSpec (key mode : Int) : Option String :=
  if 0 ≤ key ∧ key < 12 ∧ (mode = 0 ∨ mode = 1) then
    some (toString ((7 * (key + 1) + (if mode = 1 then 0 else 9)) % 12 + 1) ++
      (if mode = 1 then "B" else "A"))
  else none

/-- camelotDomain: the 24 (key, mode) pairs forming the dictionary's domain. -/
def camelotDomain : List (Int × Int) :=
  ((List.range 12).map fun k => ((k : Int), (0 : Int))) ++
    ((List.range 12).map fun k => ((k : Int), (1 : Int)))

/-- wheelValues: the 24 Camelot wheel strings, one A and one B value for each
wheel position 1 to 12. -/
def wheelValues : List String :=
  ((List.range 12).map fun n => toString (n + 1) ++ "A") ++
    ((List.range 12).map fun n => toString (n + 1) ++ "B")

/-- A playlist track as consumed by the Camelot sort: its name and the camelot
field written by enrich_track_with_audio_features, which is None exactly when
spotify_to_camelot returned None. -/
structure Track where
  name : String
  camelot : Option String
deriving DecidableEq

/-- camelotKey: the sort key lambda of sort_tracks_camelot applied to one
track, (camelot[:-1], camelot[-1]) as the pair of the character list of the
string without its last character and that last character.  Python raises
TypeError when camelot is None ('NoneType' is not subscriptable) and
IndexError when it is the empty string. -/
def camelotKey (t : Track) : Except String (List Char × Char) :=
  match t.camelot with
  | none => .error "TypeError: NoneType is not subscriptable"
  | some s =>
    match s.data.getLast? with
    | none => .error "IndexError: string index out of range"
    | some c => .ok (s.data.dropLast, c)

/-- keyedTracks: list.sort(key=...) first computes the key of every element in
list order, raising the first exception encountered. -/
def keyedTracks : List Track → Except String (List (Track × (List Char × Char)))
  | [] => .ok []
  | t :: ts =>
    match camelotKey t, keyedTracks ts with
    | .error e, _ => .error e
    | .ok _, .error e => .error e
    | .ok k, .ok ps => .ok ((t, k) :: ps)

/-- charListLt: Python's lexicographic comparison of two strings, on their
character lists (characters compared by code point). -/
def charListLt : List Char → List Char → Bool
  | [], [] => false
  | [], _ :: _ => true
  | _ :: _, [] => false
  | a :: as, b :: bs => a < b || (a = b && charListLt as bs)

/-- keyLe: the non-strict order on sort keys realised by Python's stable sort
over tuple comparison: (s1, c1) <= (s2, c2) iff s1 < s2 lexicographically, or
s1 = s2 and c1 <= c2. -/
def keyLe (a b : List Char × Char) : Bool :=
  charListLt a.1 b.1 || (a.1 = b.1 && (a.2 = b.2 || a.2 < b.2))

/-- insertByKey: insert a keyed track into an already sorted keyed list,
before the first element whose key is greater or equal; together with foldr
this realises a stable sort, earlier input elements ending up before later
ones of equal key. -/
def insertByKey (x : Track × (List Char × Char)) :
    List (Track × (List Char × Char)) → List (Track × (List Char × Char))
  | [] => [x]
  | y :: ys => if keyLe x.2 y.2 then x :: y :: ys else y :: insertByKey x ys

/-- stableSortByKey: the stable sort (Python list.sort) of a keyed track list,
as an insertion sort from the right. -/
def stableSortByKey (l : List (Track × (List Char × Char))) :
    List (Track × (List Char × Char)) :=
  l.foldr insertByKey []

/-- sort_tracks_camelot from app.py, on one playlist's track list: sort by the
key (camelot[:-1], camelot[-1]), propagating the exception Python raises while
computing the keys when a camelot field is None or empty. -/
def sort_tracks_camelot (tracks : List Track) : Except String (List Track) :=
  match keyedTracks tracks with
  | .error e => .error e
  | .ok keyed => .ok ((stableSortByKey keyed).map Prod.fst)

/-- keyOfChars: the sort key a track with the given camelot string receives
(the value camelotKey returns on it), used to state key uniqueness. -/
def keyOfChars (n : String) : List Char × Char :=
  match n.data.getLast? with
  | none => ([], 'A')
  | some c => (n.data.dropLast, c)

/-- tokenizeAux: accumulate a maximal run of alphanumeric characters; a
non-alphanumeric character flushes the run, becoming a token of its own unless
it is whitespace. -/
def tokenizeAux : List Char → List Char → List (List Char)
  | [], acc => if acc.isEmpty then [] else [acc.reverse]
  | c :: cs, acc =>
    if c.isAlphanum then tokenizeAux cs (c :: acc)
    else
      (if acc.isEmpty then [] else [acc.reverse]) ++
        (if c.isWhitespace then [] else [[c]]) ++ tokenizeAux cs []

/-- Modelled from the spec: nltk's word_tokenize (an external library), which
splits text at word boundaries into word tokens, emitting punctuation
characters as tokens of their own. -/
def wordTokenize (s : String) : List String :=
  (tokenizeAux s.data []).map fun cs => String.mk cs

/-- Modelled from the spec: the fixed English stop-word set,
stopwords.words('english') shipped with nltk (an external data file; the
standard list, which contains in particular "the" and "on"). -/
def stop_words : List String :=
  ["i", "me", "my", "myself", "we", "our", "ours", "ourselves", "you", "your",
   "yours", "yourself", "yourselves", "he", "him", "his", "himself", "she",
   "her", "hers", "herself", "it", "its", "itself", "they", "them", "their",
   "theirs", "themselves", "what", "which", "who", "whom", "this", "that",
   "these", "those", "am", "is", "are", "was", "were", "be", "been", "being",
   "have", "has", "had", "having", "do", "does", "did", "doing", "a", "an",
   "the", "and", "but", "if", "or", "because", "as", "until", "while", "of",
   "at", "by", "for", "with", "about", "against", "between", "into",
   "through", "during", "before", "after", "above", "below", "to", "from",
   "up", "down", "in", "out", "on", "off", "over", "under", "again",
   "further", "then", "once", "here", "there", "when", "where", "why", "how",
   "all", "any", "both", "each", "few", "more", "most", "other", "some",
   "such", "no", "nor", "not", "only", "own", "same", "so", "than", "too",
   "very", "s", "t", "can", "will", "just", "don", "should", "now"]

/-- pyLower: Python's str.lower, lower-casing character by character. -/
def pyLower (s : String) : String :=
  String.mk (s.data.map Char.toLower)

/-- pyIsalnum: Python's str.isalnum, true iff the string is non-empty and all
its characters are alphanumeric. -/
def pyIsalnum (w : String) : Bool :=
  !w.data.isEmpty && w.data.all Char.isAlphanum

/-- process_lyrics from app.py: lower-case the text, tokenize it, and keep the
tokens that are alphanumeric and not stop words. -/
def process_lyrics (lyrics : String) : List String :=
  (wordTokenize (pyLower lyrics)).filter fun w =>
    pyIsalnum w && !(decide (w ∈ stop_words))

/-- fetch_and_process_lyrics from app.py, with the Genius search abstracted to
the lyrics text it returns (none when no song is found or the song has no
lyrics): lyrics absent or under 50 characters give None, everything else the
processed token list. -/
def fetch_and_process_lyrics (lyrics : Option String) : Option (List String) :=
  match lyrics with
  | none => none
  | some l => if l.length < 50 then none else some (process_lyrics l)

/-- joinLyrics: one entry of the lyrics_list comprehension in
sort_songs_by_similarity, " ".join(song['track']['lyrics']); joining the None
that fetch_and_process_lyrics stores for missing or short lyrics raises
TypeError. -/
def joinLyrics : Option (List String) → Except String String
  | none => .error "TypeError: can only join an iterable"
  | some ws => .ok (String.intercalate " " ws)

/-- lyricsList: the comprehension building lyrics_list, evaluated left to
right, raising the first TypeError hit. -/
def lyricsList : List (Option (List String)) → Except String (List String)
  | [] => .ok []
  | l :: ls =>
    match joinLyrics l, lyricsList ls with
    | .error e, _ => .error e
    | .ok _, .error e => .error e
    | .ok s, .ok ss => .ok (s :: ss)

/-- splitNonSpace: the maximal space-separated words of a character list
(joined lyrics are space-separated tokens, so these are the vectorizer's
candidate terms). -/
def splitNonSpace : List Char → List Char → List (List Char)
  | [], acc => if acc.isEmpty then [] else [acc.reverse]
  | c :: cs, acc =>
    if c = ' ' then
      if acc.isEmpty then splitNonSpace cs []
      else acc.reverse :: splitNonSpace cs []
    else splitNonSpace cs (c :: acc)

/-- Modelled from the spec: sklearn's TfidfVectorizer.fit_transform (an
external library) raises ValueError ("empty vocabulary") when the corpus
yields no vocabulary term at all, in particular on an empty corpus. -/
def vocabularyEmpty (docs : List String) : Bool :=
  docs.all fun d => (splitNonSpace d.data []).isEmpty

/-- sort_songs_by_similarity from app.py, over the tracks' lyrics fields.  The
comprehension joins each lyrics value (TypeError on a None entry); then
fit_transform raises on an empty vocabulary; otherwise
sorted(range(n), key=lambda x: -similarity_matrix[x]) gives every index the
negated length-n similarity row of the n-by-n matrix as its sort key, so for
n >= 2 the first key comparison calls bool() on a multi-element numpy array
and raises ValueError, while for n <= 1 sorted performs no comparison at all
and returns range(n) unchanged. -/
def sort_songs_by_similarity (tracks : List (Option (List String))) :
    Except String (List Nat) :=
  match lyricsList tracks with
  | .error e => .error e
  | .ok docs =>
    if vocabularyEmpty docs then
      .error "ValueError: empty vocabulary"
    else if docs.length ≤ 1 then
      .ok (List.range docs.length)
    else
      .error "ValueError: the truth value of an array with more than one element is ambiguous"

/-- sklearn_stop_words: the built-in English stop-word list of sklearn
(ENGLISH_STOP_WORDS), which app.py line 27 activates by constructing the
vectorizer as TfidfVectorizer(stop_words='english'); the list itself ships
with the library. -/
def sklearn_stop_words : List String :=
  ["a", "about", "above", "across", "after", "afterwards", "again", "against",
   "all", "almost", "alone", "along", "already", "also", "although", "always",
   "am", "among", "amongst", "amoungst", "amount", "an", "and", "another",
   "any", "anyhow", "anyone", "anything", "anyway", "anywhere", "are",
   "around", "as", "at", "back", "be", "became", "because", "become",
   "becomes", "becoming", "been", "before", "beforehand", "behind", "being",
   "below", "beside", "besides", "between", "beyond", "bill", "both",
   "bottom", "but", "by", "call", "can", "cannot", "cant", "co", "con",
   "could", "couldnt", "cry", "de", "describe", "detail", "do", "done",
   "down", "due", "during", "each", "eg", "eight", "either", "eleven",
   "else", "elsewhere", "empty", "enough", "etc", "even", "ever", "every",
   "everyone", "everything", "everywhere", "except", "few", "fifteen",
   "fifty", "fill", "find", "fire", "first", "five", "for", "former",
   "formerly", "forty", "found", "four", "from", "front", "full", "further",
   "get", "give", "go", "had", "has", "hasnt", "have", "he", "hence", "her",
   "here", "hereafter", "hereby", "herein", "hereupon", "hers", "herself",
   "him", "himself", "his", "how", "however", "hundred", "i", "ie", "if",
   "in", "inc", "indeed", "interest", "into", "is", "it", "its", "itself",
   "keep", "last", "latter", "latterly", "least", "less", "ltd", "made",
   "many", "may", "me", "meanwhile", "might", "mill", "mine", "more",
   "moreover", "most", "mostly", "move", "much", "must", "my", "myself",
   "name", "namely", "neither", "never", "nevertheless", "next", "nine",
   "no", "nobody", "none", "noone", "nor", "not", "nothing", "now",
   "nowhere", "of", "off", "often", "on", "once", "one", "only", "onto",
   "or", "other", "others", "otherwise", "our", "ours", "ourselves", "out",
   "over", "own", "part", "per", "perhaps", "please", "put", "rather", "re",
   "same", "see", "seem", "seemed", "seeming", "seems", "serious", "several",
   "she", "should", "show", "side", "since", "sincere", "six", "sixty", "so",
   "some", "somehow", "someone", "something", "sometime", "sometimes",
   "somewhere", "still", "such", "system", "take", "ten", "than", "that",
   "the", "their", "them", "themselves", "then", "thence", "there",
   "thereafter", "thereby", "therefore", "therein", "thereupon", "these",
   "they", "thick", "thin", "third", "this", "those", "though", "three",
   "through", "throughout", "thru", "thus", "to", "together", "too", "top",
   "toward", "towards", "twelve", "twenty", "two", "un", "under", "until",
   "up", "upon", "us", "very", "via", "was", "we", "well", "were", "what",
   "whatever", "when", "whence", "whenever", "where", "whereafter",
   "whereas", "whereby", "wherein", "whereupon", "wherever", "whether",
   "which", "while", "whither", "who", "whoever", "whole", "whom", "whose",
   "why", "will", "with", "within", "without", "would", "yet", "you",
   "your", "yours", "yourself", "yourselves"]

/-- sklearnTerm: whether TfidfVectorizer(stop_words='english') accepts a token
as a term: its default token pattern keeps only tokens of at least two word
characters, and the stop_words='english' argument of app.py line 27 then
drops the sklearn English stop words. -/
def sklearnTerm (t : String) : Bool :=
  decide (2 ≤ t.length) && !(decide (t ∈ sklearn_stop_words))

/-- sklearnTokens: the terms of a document the vectorizer actually keeps.
The documents handed to fit_transform are the space-joined alphanumeric
tokens of process_lyrics, which sklearn's token pattern splits back into
exactly those tokens, so the vectorizer's filtering acts token-wise. -/
def sklearnTokens (d : List String) : List String :=
  d.filter sklearnTerm

/-- vocab: the vocabulary of a token corpus, the set of terms the vectorizer
keeps from at least one document. -/
def vocab (docs : List (List String)) : Finset String :=
  (docs.map sklearnTokens).flatten.toFinset

/-- docFreq: the number of documents of the corpus containing the term among
their kept terms. -/
def docFreq (docs : List (List String)) (t : String) : Nat :=
  docs.countP fun d => decide (t ∈ sklearnTokens d)

/-- Modelled from the spec: the log-scaled smoothed inverse document frequency
of the standard TF-IDF weighting (sklearn's TfidfVectorizer is an external
library; exact real arithmetic stands in for its floating point). -/
noncomputable def idf (docs : List (List String)) (t : String) : ℝ :=
  Real.log ((1 + docs.length) / (1 + docFreq docs t)) + 1

/-- Modelled from the spec: the TF-IDF weight of a term in a document, term
frequency among the document's kept terms times inverse document frequency;
a term filtered out by the vectorizer has frequency 0 and hence weight 0. -/
noncomputable def tfidf (docs : List (List String)) (d : List String)
    (t : String) : ℝ :=
  ((sklearnTokens d).count t : ℝ) * idf docs t

/-- dotTfidf: the inner product of the TF-IDF vectors of two documents over
the corpus vocabulary. -/
noncomputable def dotTfidf (docs : List (List String)) (d1 d2 : List String) : ℝ :=
  ∑ t ∈ vocab docs, tfidf docs d1 t * tfidf docs d2 t

/-- Modelled from the spec: cosine similarity of the TF-IDF vectors of two
documents, defined as 0 when either vector is zero (no division by zero). -/
noncomputable def cosineSim (docs : List (List String)) (d1 d2 : List String) : ℝ :=
  if dotTfidf docs d1 d1 = 0 ∨ dotTfidf docs d2 d2 = 0 then 0
  else dotTfidf docs d1 d2 /
    (Real.sqrt (dotTfidf docs d1 d1) * Real.sqrt (dotTfidf docs d2 d2))

/-- similarityMatrix: entry (i, j) is the cosine similarity of documents i and
j of the corpus; an out-of-range index reads as an empty document. -/
noncomputable def similarityMatrix (docs : List (List String)) (i j : Nat) : ℝ :=
  cosineSim docs (docs.getD i []) (docs.getD j [])

set_option maxHeartbeats 1600000 in
/-- C1: for every (pitchClass, mode) pair, spotify_to_camelot agrees with the
documented Camelot wheel: on each of the 24 in-domain pairs it returns exactly
the documented value (for example (0,1) gives "8B", (1,1) gives "3B" and (0,0)
gives "5A"), and on every pair outside the domain it returns none rather than
raising. -/
theorem spotify_to_camelot_correct (key mode : Int) :
    spotify_to_camelot key mode = camelotSpec key mode := by
  by_cases h : 0 ≤ key ∧ key < 12 ∧ (mode = 0 ∨ mode = 1)
  · obtain ⟨h0, h1, hm⟩ := h
    interval_cases key <;> rcases hm with rfl | rfl <;> decide
  · rw [camelotSpec, if_neg h, spotify_to_camelot]
    iterate 24 rw [if_neg (by omega)]

/-- C10: restricted to its 24-pair domain the mapping is injective (the list of
its 24 results has no duplicate) and its results are a permutation of the 24
Camelot wheel strings, so every wheel position 1-12 occurs exactly once with
letter A and exactly once with letter B: a bijection onto the wheel. -/
theorem spotify_to_camelot_bijective :
    (camelotDomain.map fun p => spotify_to_camelot p.1 p.2).Nodup ∧
      (camelotDomain.filterMap fun p => spotify_to_camelot p.1 p.2).Perm
        wheelValues := by
  decide

/-- C2: the Camelot sort compares the wheel position as a string, not as a
number: camelot[:-1] is the string before the letter, and Python compares
strings lexicographically, so the tracks in "10B" and "11B" are placed before
the track in "9B" instead of after it. -/
theorem camelot_sort_is_lexicographic :
    sort_tracks_camelot
        [⟨"s1", some "9B"⟩, ⟨"s2", some "10B"⟩, ⟨"s3", some "11B"⟩] =
      .ok [⟨"s2", some "10B"⟩, ⟨"s3", some "11B"⟩, ⟨"s1", some "9B"⟩] := by
  rfl

/-- C3: a (pitchClass, mode) pair outside the domain (Spotify reports key -1
when no key is detected) yields camelot None, and sort_tracks_camelot then
raises TypeError evaluating None[:-1] instead of terminating normally and
placing the track deterministically. -/
theorem camelot_sort_crashes_on_missing :
    spotify_to_camelot (-1) 0 = none ∧
      sort_tracks_camelot [⟨"s1", some "8B"⟩, ⟨"s2", none⟩] =
        .error "TypeError: NoneType is not subscriptable" := by
  constructor <;> rfl

/-- keyLe is reflexive: a key compares less-or-equal to itself. -/
theorem keyLe_refl (k : List Char × Char) : keyLe k k = true := by
  simp [keyLe]

/-- Membership in an insertion: the inserted list holds the new element and
the old ones. -/
theorem mem_insertByKey (p x : Track × (List Char × Char))
    (l : List (Track × (List Char × Char))) :
    p ∈ insertByKey x l → p = x ∨ p ∈ l := by
  induction l with
  | nil =>
    intro hp
    rw [insertByKey] at hp
    exact Or.inl (List.mem_singleton.mp hp)
  | cons y ys ih =>
    intro hp
    rw [insertByKey] at hp
    split at hp
    · rcases List.mem_cons.mp hp with h | h
      · exact Or.inl h
      · exact Or.inr h
    · rcases List.mem_cons.mp hp with h | h
      · exact Or.inr (by simp [h])
      · rcases ih h with h2 | h2
        · exact Or.inl h2
        · exact Or.inr (by simp [h2])

/-- Inserting an element the filter rejects does not change the filtered
list. -/
theorem filter_insertByKey_neg (Q : Track × (List Char × Char) → Bool)
    (x : Track × (List Char × Char)) (l : List (Track × (List Char × Char)))
    (hx : Q x = false) : (insertByKey x l).filter Q = l.filter Q := by
  induction l with
  | nil => simp [insertByKey, hx]
  | cons y ys ih =>
    rw [insertByKey]
    split
    · simp [List.filter_cons, hx]
    · rw [List.filter_cons, List.filter_cons, ih]

/-- Inserting an element the filter keeps, when every kept element of the list
carries the same key, puts it at the front of the filtered list: elements
strictly before the insertion point have strictly smaller keys, hence are
rejected by the filter. -/
theorem filter_insertByKey_pos (Q : Track × (List Char × Char) → Bool)
    (x : Track × (List Char × Char)) (l : List (Track × (List Char × Char)))
    (hx : Q x = true) (huniq : ∀ y ∈ l, Q y = true → y.2 = x.2) :
    (insertByKey x l).filter Q = x :: l.filter Q := by
  induction l with
  | nil => simp [insertByKey, hx]
  | cons y ys ih =>
    rw [insertByKey]
    split
    · simp [List.filter_cons, hx]
    · rename_i hnle
      have hy : Q y = false := by
        cases hqy : Q y with
        | false => rfl
        | true =>
          exfalso
          have h2 := huniq y (List.mem_cons_self y ys) hqy
          rw [h2] at hnle
          exact hnle (keyLe_refl x.2)
      rw [List.filter_cons, hy]
      simp only [Bool.false_eq_true, if_false]
      rw [ih (fun p hp hq => huniq p (List.mem_cons_of_mem y hp) hq)]
      simp [List.filter_cons, hy]

/-- The stable sort permutes; in particular its members come from the input. -/
theorem mem_stableSortByKey (p : Track × (List Char × Char))
    (l : List (Track × (List Char × Char))) :
    p ∈ stableSortByKey l → p ∈ l := by
  induction l with
  | nil => intro hp; exact absurd hp (List.not_mem_nil p)
  | cons x xs ih =>
    intro hp
    rcases mem_insertByKey p x (stableSortByKey xs) hp with h | h
    · simp [h]
    · simp [ih h]

/-- Stability of the sort, filter form: when all elements the filter keeps
carry one and the same key, sorting does not change the filtered sublist. -/
theorem filter_stableSortByKey (Q : Track × (List Char × Char) → Bool)
    (k : List Char × Char) (l : List (Track × (List Char × Char)))
    (huniq : ∀ p ∈ l, Q p = true → p.2 = k) :
    (stableSortByKey l).filter Q = l.filter Q := by
  induction l with
  | nil => rfl
  | cons x xs ih =>
    have hxs : ∀ p ∈ xs, Q p = true → p.2 = k :=
      fun p hp hq => huniq p (List.mem_cons_of_mem x hp) hq
    show (insertByKey x (stableSortByKey xs)).filter Q = (x :: xs).filter Q
    cases hx : Q x with
    | true =>
      have hk : x.2 = k := huniq x (List.mem_cons_self x xs) hx
      rw [filter_insertByKey_pos Q x (stableSortByKey xs) hx
        (fun y hy hqy => by
          rw [hxs y (mem_stableSortByKey y xs hy) hqy, hk])]
      rw [ih hxs]
      simp [List.filter_cons, hx]
    | false =>
      rw [filter_insertByKey_neg Q x (stableSortByKey xs) hx, ih hxs]
      simp [List.filter_cons, hx]

/-- keyedTracks on success pairs each input track, in order, with the key
camelotKey assigns it. -/
theorem keyedTracks_ok (ts : List Track)
    (ps : List (Track × (List Char × Char))) (h : keyedTracks ts = .ok ps) :
    ps.map Prod.fst = ts ∧ ∀ p ∈ ps, camelotKey p.1 = .ok p.2 := by
  induction ts generalizing ps with
  | nil =>
    simp only [keyedTracks, Except.ok.injEq] at h
    subst h
    simp
  | cons t ts ih =>
    cases hk : camelotKey t with
    | error e => simp [keyedTracks, hk] at h
    | ok k =>
      cases hts : keyedTracks ts with
      | error e => simp [keyedTracks, hk, hts] at h
      | ok qs =>
        simp only [keyedTracks, hk, hts, Except.ok.injEq] at h
        subst h
        obtain ⟨h1, h2⟩ := ih qs hts
        refine ⟨by simp [h1], ?_⟩
        intro p hp
        rcases List.mem_cons.mp hp with rfl | hp2
        · exact hk
        · exact h2 p hp2

/-- C4: the Camelot sort is stable: whenever sort_tracks_camelot returns a
result, the tracks carrying any one identical camelot value appear in the
output in exactly the same relative order as in the input (the filtered
sublists coincide). -/
theorem camelot_sort_stable (tracks out : List Track) (n : String)
    (h : sort_tracks_camelot tracks = .ok out) :
    out.filter (fun t => t.camelot = some n) =
      tracks.filter (fun t => t.camelot = some n) := by
  cases hk : keyedTracks tracks with
  | error e => simp [sort_tracks_camelot, hk] at h
  | ok keyed =>
    simp only [sort_tracks_camelot, hk, Except.ok.injEq] at h
    obtain ⟨hmap, hkeys⟩ := keyedTracks_ok tracks keyed hk
    subst h
    have huniq : ∀ p ∈ keyed,
        ((fun t => decide (t.camelot = some n)) ∘ Prod.fst) p = true →
          p.2 = keyOfChars n := by
      intro p hp hq
      have hc : p.1.camelot = some n := of_decide_eq_true (by simpa using hq)
      have hck := hkeys p hp
      rw [camelotKey, hc] at hck
      cases hl : n.data.getLast? with
      | none => simp [hl] at hck
      | some c =>
        simp only [hl, Except.ok.injEq] at hck
        rw [keyOfChars, hl, ← hck]
    rw [List.filter_map, filter_stableSortByKey _ (keyOfChars n) keyed huniq,
      ← List.filter_map, hmap]

/-- Witness for C4 at a concrete input: two tracks in "8B" around one in "3B";
the sort moves "3B" to the front and keeps the two "8B" tracks in input
order. -/
theorem camelot_sort_stable_witness :
    sort_tracks_camelot
        [⟨"s1", some "8B"⟩, ⟨"s2", some "8B"⟩, ⟨"s3", some "3B"⟩] =
      .ok [⟨"s3", some "3B"⟩, ⟨"s1", some "8B"⟩, ⟨"s2", some "8B"⟩] ∧
    ([⟨"s3", some "3B"⟩, ⟨"s1", some "8B"⟩, ⟨"s2", some "8B"⟩] : List Track).filter
        (fun t => t.camelot = some "8B") =
      ([⟨"s1", some "8B"⟩, ⟨"s2", some "8B"⟩, ⟨"s3", some "3B"⟩] : List Track).filter
        (fun t => t.camelot = some "8B") :=
  ⟨rfl, camelot_sort_stable
    [⟨"s1", some "8B"⟩, ⟨"s2", some "8B"⟩, ⟨"s3", some "3B"⟩]
    [⟨"s3", some "3B"⟩, ⟨"s1", some "8B"⟩, ⟨"s2", some "8B"⟩] "8B" rfl⟩

/-- C5: process_lyrics lower-cases the text, splits it into word tokens, and
keeps exactly the tokens that are purely alphanumeric and not in the fixed
English stop-word set; in particular "The Cat sat on the MAT!!" tokenizes to
["cat", "sat", "mat"]. -/
theorem process_lyrics_spec :
    (∀ s w, w ∈ process_lyrics s ↔
      (w ∈ wordTokenize (pyLower s) ∧ pyIsalnum w = true ∧ w ∉ stop_words)) ∧
      process_lyrics "The Cat sat on the MAT!!" = ["cat", "sat", "mat"] := by
  constructor
  · intro s w
    simp [process_lyrics, List.mem_filter, and_assoc]
  · decide

/-- C7: a track with absent lyrics, or lyrics under the 50-character
threshold, gets lyrics = None rather than an empty token list, and the
similarity sort then raises TypeError at " ".join(None) instead of letting the
track participate with similarity 0. -/
theorem missing_lyrics_crash :
    fetch_and_process_lyrics none = none ∧
      fetch_and_process_lyrics (some "la la") = none ∧
      sort_songs_by_similarity [some ["cat", "dog"], none] =
        .error "TypeError: can only join an iterable" := by
  refine ⟨rfl, rfl, rfl⟩

/-- C8: on a corpus of two or more tracks the similarity sort raises
ValueError instead of returning a ranking: each sort key is a whole negated
similarity row, and comparing two multi-element numpy arrays in sorted() is
ambiguous.  (The code also accepts no reference-track index at all.) -/
theorem similarity_sort_crashes_on_two :
    sort_songs_by_similarity [some ["cat", "dog"], some ["dog", "bird"]] =
      .error "ValueError: the truth value of an array with more than one element is ambiguous" := by
  rfl

/-- C9: there is no short-circuit for degenerate corpora: on the empty corpus
the code reaches fit_transform, which raises ValueError on the empty
vocabulary, instead of returning the empty sequence; a 1-track corpus with
tokens does return [0], but only because sorted() happens to make no
comparison, the matrix still being computed. -/
theorem degenerate_corpus_raises :
    sort_songs_by_similarity [] = .error "ValueError: empty vocabulary" ∧
      sort_songs_by_similarity [some ["cat", "dog"]] = .ok [0] := by
  refine ⟨rfl, rfl⟩

/-- A term appears in at most as many documents as the corpus has. -/
theorem docFreq_le_length (docs : List (List String)) (t : String) :
    docFreq docs t ≤ docs.length :=
  List.countP_le_length _

/-- The smoothed idf weight is positive: the log argument is at least 1. -/
theorem idf_pos (docs : List (List String)) (t : String) : 0 < idf docs t := by
  have h1 : (1 : ℝ) ≤ (1 + docs.length) / (1 + docFreq docs t) := by
    rw [le_div_iff₀ (by positivity), one_mul]
    have h := docFreq_le_length docs t
    exact_mod_cast add_le_add_left (Nat.cast_le.mpr h) 1
  have h2 := Real.log_nonneg h1
  unfold idf
  linarith

/-- TF-IDF weights are nonnegative. -/
theorem tfidf_nonneg (docs : List (List String)) (d : List String)
    (t : String) : 0 ≤ tfidf docs d t :=
  mul_nonneg (Nat.cast_nonneg _) (le_of_lt (idf_pos docs t))

/-- Inner products of TF-IDF vectors are nonnegative. -/
theorem dotTfidf_nonneg (docs : List (List String)) (d1 d2 : List String) :
    0 ≤ dotTfidf docs d1 d2 :=
  Finset.sum_nonneg fun t _ =>
    mul_nonneg (tfidf_nonneg docs d1 t) (tfidf_nonneg docs d2 t)

/-- The TF-IDF inner product is symmetric. -/
theorem dotTfidf_comm (docs : List (List String)) (d1 d2 : List String) :
    dotTfidf docs d1 d2 = dotTfidf docs d2 d1 :=
  Finset.sum_congr rfl fun _ _ => mul_comm _ _

/-- A document of the corpus with at least one term kept by the vectorizer's
filtering has a TF-IDF vector of positive squared norm. -/
theorem dotTfidf_self_pos (docs : List (List String)) (d : List String)
    (hd : d ∈ docs) (hne : sklearnTokens d ≠ []) : 0 < dotTfidf docs d d := by
  cases hs : sklearnTokens d with
  | nil => exact absurd hs hne
  | cons t0 rest =>
    apply Finset.sum_pos'
    · intro u _
      exact mul_nonneg (tfidf_nonneg docs d u) (tfidf_nonneg docs d u)
    · refine ⟨t0, ?_, ?_⟩
      · simp only [vocab, List.mem_toFinset, List.mem_flatten]
        refine ⟨sklearnTokens d, List.mem_map_of_mem sklearnTokens hd, ?_⟩
        rw [hs]
        exact List.mem_cons_self t0 rest
      · have hc : 0 < ((sklearnTokens d).count t0 : ℝ) := by
          have hn : 0 < (sklearnTokens d).count t0 := by
            rw [hs]
            have h := List.count_cons_self t0 rest
            omega
          exact_mod_cast hn
        have hpos : 0 < tfidf docs d t0 := mul_pos hc (idf_pos docs t0)
        exact mul_pos hpos hpos

/-- Cauchy-Schwarz for the TF-IDF inner product. -/
theorem dotTfidf_le (docs : List (List String)) (d1 d2 : List String) :
    dotTfidf docs d1 d2 ≤
      Real.sqrt (dotTfidf docs d1 d1) * Real.sqrt (dotTfidf docs d2 d2) := by
  have h := Real.sum_mul_le_sqrt_mul_sqrt (vocab docs)
    (fun t => tfidf docs d1 t) (fun t => tfidf docs d2 t)
  have e1 : ∑ t ∈ vocab docs, tfidf docs d1 t ^ 2 = dotTfidf docs d1 d1 :=
    Finset.sum_congr rfl fun t _ => by rw [pow_two]
  have e2 : ∑ t ∈ vocab docs, tfidf docs d2 t ^ 2 = dotTfidf docs d2 d2 :=
    Finset.sum_congr rfl fun t _ => by rw [pow_two]
  rw [e1, e2] at h
  exact h

/-- An in-range index reads an actual document of the corpus. -/
theorem getD_mem_of_lt (docs : List (List String)) (i : Nat)
    (h : i < docs.length) : docs.getD i [] ∈ docs := by
  induction docs generalizing i with
  | nil => simp at h
  | cons d ds ih =>
    cases i with
    | zero => simp [List.getD]
    | succ n =>
      have hn : n < ds.length := by simpa using h
      have := ih n hn
      simp only [List.getD] at this ⊢
      simpa using List.mem_cons_of_mem d this

/-- C6 (amended): the similarity matrix is symmetric and every entry lies in
[0, 1]; the diagonal entry of a track equals 1 when its token set still
contains at least one term after the vectorizer's own filtering (the sklearn
English stop-word list activated at app.py line 27 and the two-character
token pattern) - not for every non-empty token set, as the counterexample
shows. -/
theorem similarity_matrix_props (docs : List (List String)) (i j : Nat) :
    similarityMatrix docs i j = similarityMatrix docs j i ∧
      0 ≤ similarityMatrix docs i j ∧ similarityMatrix docs i j ≤ 1 ∧
      (i < docs.length → sklearnTokens (docs.getD i []) ≠ [] →
        similarityMatrix docs i i = 1) := by
  refine ⟨?_, ?_, ?_, ?_⟩
  · unfold similarityMatrix cosineSim
    by_cases h : dotTfidf docs (docs.getD i []) (docs.getD i []) = 0 ∨
        dotTfidf docs (docs.getD j []) (docs.getD j []) = 0
    · rw [if_pos h, if_pos (Or.symm h)]
    · rw [if_neg h, if_neg (fun hc => h (Or.symm hc)),
        dotTfidf_comm docs (docs.getD i []) (docs.getD j []),
        mul_comm (Real.sqrt (dotTfidf docs (docs.getD i []) (docs.getD i [])))
          (Real.sqrt (dotTfidf docs (docs.getD j []) (docs.getD j [])))]
  · unfold similarityMatrix cosineSim
    split
    · exact le_refl 0
    · exact div_nonneg (dotTfidf_nonneg docs _ _)
        (mul_nonneg (Real.sqrt_nonneg _) (Real.sqrt_nonneg _))
  · unfold similarityMatrix cosineSim
    split
    · exact zero_le_one
    · rename_i h
      push_neg at h
      obtain ⟨h1, h2⟩ := h
      have p1 : 0 < dotTfidf docs (docs.getD i []) (docs.getD i []) :=
        lt_of_le_of_ne (dotTfidf_nonneg docs _ _) (Ne.symm h1)
      have p2 : 0 < dotTfidf docs (docs.getD j []) (docs.getD j []) :=
        lt_of_le_of_ne (dotTfidf_nonneg docs _ _) (Ne.symm h2)
      rw [div_le_one (mul_pos (Real.sqrt_pos.mpr p1) (Real.sqrt_pos.mpr p2))]
      exact dotTfidf_le docs _ _
  · intro hi hne
    have hd : docs.getD i [] ∈ docs := getD_mem_of_lt docs i hi
    have hp : 0 < dotTfidf docs (docs.getD i []) (docs.getD i []) :=
      dotTfidf_self_pos docs _ hd hne
    unfold similarityMatrix cosineSim
    rw [if_neg (by push_neg; exact ⟨ne_of_gt hp, ne_of_gt hp⟩)]
    rw [Real.mul_self_sqrt (le_of_lt hp)]
    exact div_self (ne_of_gt hp)

/-- Witness for C6 at a concrete two-document corpus: symmetry, the [0, 1]
bounds for the (0, 1) entry, and diagonal 1 for document 0, whose token
"cat" survives the vectorizer's filtering. -/
theorem similarity_matrix_props_witness :
    similarityMatrix [["cat"], ["cat", "dog"]] 0 1 =
        similarityMatrix [["cat"], ["cat", "dog"]] 1 0 ∧
      0 ≤ similarityMatrix [["cat"], ["cat", "dog"]] 0 1 ∧
      similarityMatrix [["cat"], ["cat", "dog"]] 0 1 ≤ 1 ∧
      similarityMatrix [["cat"], ["cat", "dog"]] 0 0 = 1 := by
  obtain ⟨h1, h2, h3, h4⟩ := similarity_matrix_props [["cat"], ["cat", "dog"]] 0 1
  exact ⟨h1, h2, h3, h4 (by decide) (by decide)⟩

/-- Counterexample to C6 as stated: track 1 of the corpus
[["cat", "dog"], ["would"]] has the non-empty token set ["would"], but the
vectorizer built with stop_words='english' at app.py line 27 drops "would"
as an sklearn English stop word, leaving a zero TF-IDF vector, so the
program's diagonal entry for this track is 0, not 1. -/
theorem similarity_diagonal_counterexample :
    ([["cat", "dog"], ["would"]] : List (List String)).getD 1 [] ≠ [] ∧
      similarityMatrix [["cat", "dog"], ["would"]] 1 1 = 0 ∧
      similarityMatrix [["cat", "dog"], ["would"]] 1 1 ≠ 1 := by
  have hz : dotTfidf [["cat", "dog"], ["would"]] ["would"] ["would"] = 0 := by
    unfold dotTfidf
    apply Finset.sum_eq_zero
    intro t ht
    have hst : sklearnTokens ["would"] = [] := by decide
    unfold tfidf
    rw [hst]
    simp
  have hg : ([["cat", "dog"], ["would"]] : List (List String)).getD 1 [] =
      ["would"] := rfl
  have hm : similarityMatrix [["cat", "dog"], ["would"]] 1 1 = 0 := by
    unfold similarityMatrix
    rw [hg]
    unfold cosineSim
    rw [if_pos (Or.inl hz)]
  refine ⟨by decide, hm, ?_⟩
  rw [hm]
  norm_num
